import Mathlib

/-!
Verification development for the FinanceBot repository (dashboard-financebot).

The definitions below are a shallow embedding of the Python sources:
  - `src/analyzer.py`        (`DataAnalyzer`)
  - `src/memory_manager.py`  (`FinanceBotMemory`)
  - `src/finance_agent.py`   (`FinanceBot`)

Modelling conventions:
  - A pandas DataFrame of expense rows is a `List Record` (in storage order).
  - Currency values (Python floats holding decimal amounts) are `ℚ`.
  - Timestamps used by the memory staleness check are seconds as `ℕ`.
  - A Python dict that can be empty (`{}`) is an `Option` of a structure;
    `none` models the empty dict.
  - Python strings that are only used as tags are kept as `String`s with the
    exact source spelling ("Crescente", "current_month", ...).
  - The alert strings built by f-string interpolation are modelled by the
    inductive `Alert`, whose constructor arguments are exactly the values
    interpolated into the corresponding f-string.
-/

namespace FinanceBot

/-- A calendar date (the `data` column). -/
structure Datum where
  year : Nat
  month : Nat
  day : Nat
deriving DecidableEq, Repr

/-- One expense row of the `gastos` table. -/
structure Record where
  data : Datum
  valor : ℚ
  categoria : String
  descricao : String
  formaPagamento : String
deriving DecidableEq, Repr

/-- Keep the first occurrence of every element (order of first encounter),
modelling `pandas.Series.unique`. -/
def uniqueList {α : Type} [DecidableEq α] (l : List α) : List α :=
  l.foldl (fun acc x => if x ∈ acc then acc else acc ++ [x]) []

/-- Insert into a list sorted by the boolean relation `le`. -/
def insertSorted {α : Type} (le : α → α → Bool) (x : α) : List α → List α
  | [] => [x]
  | y :: ys => if le x y then x :: y :: ys else y :: insertSorted le x ys

/-- Insertion sort by a boolean relation. -/
def sortByB {α : Type} (le : α → α → Bool) (l : List α) : List α :=
  l.foldr (insertSorted le) []

/-- Lexicographic (codepoint) order on strings, the order pandas uses when
sorting group keys. -/
def strLeB (a b : String) : Bool :=
  decide (a < b) || a == b

/-- Models `DataAnalyzer.gastos_por_categoria`: `df.groupby("categoria")["valor"].sum()`.
pandas `groupby` returns the group keys sorted ascending, each paired with the
sum of `valor` over that group. -/
def gastosPorCategoria (df : List Record) : List (String × ℚ) :=
  (sortByB strLeB (uniqueList (df.map (·.categoria)))).map
    (fun c => (c, ((df.filter (fun r => r.categoria == c)).map (·.valor)).sum))

/-- Sum of a pandas Series given as key/value pairs (`.sum()`). -/
def seriesSum (l : List (String × ℚ)) : ℚ :=
  (l.map Prod.snd).sum

/-- Maximum of a pandas Series given as key/value pairs (`.max()`).
pandas yields NaN on an empty series; that case is always guarded in the
source, and we return 0 there. -/
def seriesMaxVal (l : List (String × ℚ)) : ℚ :=
  match l with
  | [] => 0
  | p :: t => t.foldl (fun acc q => max acc q.2) p.2

/-- Index of the maximum of a pandas Series (`.idxmax()`): the first key
attaining the maximum value. -/
def seriesIdxmax (l : List (String × ℚ)) : String :=
  match l with
  | [] => "N/A"
  | p :: t => (t.foldl (fun best q => if q.2 > best.2 then q else best) p).1

/-- Maximum of a list of values (`Series.max()` over `df["valor"]`);
only used on nonempty lists in the source. -/
def listMaxQ (l : List ℚ) : ℚ :=
  match l with
  | [] => 0
  | a :: t => t.foldl max a

/-- Minimum of a list of values (`Series.min()` over `df["valor"]`). -/
def listMinQ (l : List ℚ) : ℚ :=
  match l with
  | [] => 0
  | a :: t => t.foldl min a

/-- Models `Series.median()`: middle element of the sorted values, or the average of
the two middle elements for an even count. -/
def medianQ (l : List ℚ) : ℚ :=
  let s := sortByB (fun a b => decide (a ≤ b)) l
  let n := s.length
  if n % 2 = 1 then s.getD (n / 2) 0
  else (s.getD (n / 2 - 1) 0 + s.getD (n / 2) 0) / 2

/-- The dict returned by `DataAnalyzer.get_estatisticas_basicas` when the
dataframe is nonempty. -/
structure Estatisticas where
  totalGastos : ℚ
  mediaGastos : ℚ
  medianaGastos : ℚ
  maiorGasto : ℚ
  menorGasto : ℚ
  totalTransacoes : Nat
  categoriaMaisGasta : String
deriving DecidableEq, Repr

/-- Models `DataAnalyzer.get_estatisticas_basicas`.  On an empty dataframe the
source returns the empty dict `{}`, modelled as `none`. -/
def getEstatisticasBasicas (df : List Record) : Option Estatisticas :=
  if df.length = 0 then none
  else
    some
      { totalGastos := (df.map (·.valor)).sum
        mediaGastos := (df.map (·.valor)).sum / df.length
        medianaGastos := medianQ (df.map (·.valor))
        maiorGasto := listMaxQ (df.map (·.valor))
        menorGasto := listMinQ (df.map (·.valor))
        totalTransacoes := df.length
        categoriaMaisGasta :=
          if (gastosPorCategoria df).isEmpty then "N/A"
          else seriesIdxmax (gastosPorCategoria df) }

/-- Models `stats.get("total_gastos", 0)` on the possibly-empty stats dict. -/
def statGetTotalGastos (st : Option Estatisticas) : ℚ :=
  match st with
  | some s => s.totalGastos
  | none => 0

/-- Models `stats.get("media_gastos", 0)`. -/
def statGetMediaGastos (st : Option Estatisticas) : ℚ :=
  match st with
  | some s => s.mediaGastos
  | none => 0

/-- Models `stats.get("maior_gasto", 0)`. -/
def statGetMaiorGasto (st : Option Estatisticas) : ℚ :=
  match st with
  | some s => s.maiorGasto
  | none => 0

/-- Models `stats.get("total_transacoes", 0)` / `len(df)` as read through the dict. -/
def statGetTotalTransacoes (st : Option Estatisticas) : Nat :=
  match st with
  | some s => s.totalTransacoes
  | none => 0

/-- Models `stats.get("categoria_mais_gasta", d)` with the default `d` of the caller. -/
def statGetCategoriaMaisGasta (st : Option Estatisticas) (d : String) : String :=
  match st with
  | some s => s.categoriaMaisGasta
  | none => d

/-- C1 counterexample: on the empty record set `get_estatisticas_basicas`
returns the empty dict, not the populated sentinel dict
`{total:0, mean:0, count:0, dominant_category:"N/A"}` the claim describes. -/
theorem C1_counterexample :
    getEstatisticasBasicas [] ≠
      some { totalGastos := 0, mediaGastos := 0, medianaGastos := 0,
             maiorGasto := 0, menorGasto := 0, totalTransacoes := 0,
             categoriaMaisGasta := "N/A" } := by
  decide

/-- C1 (amended): on the empty record set the statistics operation returns the
empty dict without raising; the sentinel values total 0, mean 0, count 0 and
dominant category "N/A" are what callers observe only through their defaulted
`.get` reads of that empty dict. -/
theorem C1_empty_stats :
    getEstatisticasBasicas [] = none
    ∧ statGetTotalGastos (getEstatisticasBasicas []) = 0
    ∧ statGetMediaGastos (getEstatisticasBasicas []) = 0
    ∧ statGetTotalTransacoes (getEstatisticasBasicas []) = 0
    ∧ statGetCategoriaMaisGasta (getEstatisticasBasicas []) "N/A" = "N/A" := by
  decide

/-! ## Memory manager (`src/memory_manager.py`) -/

/-- The `(year, month)` period key `df["data"].dt.to_period("M")` assigns to a
row. -/
def monthKey (r : Record) : Nat × Nat :=
  (r.data.year, r.data.month)

/-- Chronological order on `(year, month)` period keys. -/
def monthLeB (a b : Nat × Nat) : Bool :=
  decide (a.1 < b.1) || (a.1 == b.1 && decide (a.2 ≤ b.2))

/-- Models `df.groupby(df["data"].dt.to_period("M"))["valor"].sum()`: one total per
calendar month present in the data, indexed chronologically (pandas sorts the
period keys ascending). -/
def monthlyTotals (df : List Record) : List ((Nat × Nat) × ℚ) :=
  (sortByB monthLeB (uniqueList (df.map monthKey))).map
    (fun k => (k, ((df.filter (fun r => monthKey r == k)).map (·.valor)).sum))

/-- Models `FinanceBotMemory._get_spending_trend`: compare the last two monthly
totals (`monthly_totals.tail(2)`); `recent[-2]` is the previous month,
`recent[-1]` the latest.  The `except` branch returning "Indefinido" is
unreachable in this embedding (all operations are total). -/
def getSpendingTrend (df : List Record) : String :=
  let vs := (monthlyTotals df).map Prod.snd
  if 2 ≤ vs.length then
    let prev := vs.getD (vs.length - 2) 0
    let latest := vs.getD (vs.length - 1) 0
    if prev < latest then "Crescente"
    else if latest < prev then "Decrescente"
    else "Estável"
  else "Estável"

/-- Models `FinanceBotMemory._get_monthly_average`: mean of the monthly totals,
0.0 when there is no month (and on the unreachable `except` branch). -/
def getMonthlyAverage (df : List Record) : ℚ :=
  let vs := (monthlyTotals df).map Prod.snd
  if vs.isEmpty then 0 else vs.sum / vs.length

/-- Models `FinanceBotMemory._get_preferred_payment`:
`df["forma_pagamento"].mode().iloc[0]`.  `Series.mode()` returns the most
frequent values sorted ascending, so `.iloc[0]` is the smallest most-frequent
value; on an empty frame `.iloc[0]` raises and the `except` yields "N/A". -/
def getPreferredPayment (df : List Record) : String :=
  let vals := df.map (·.formaPagamento)
  match vals with
  | [] => "N/A"
  | _ :: _ =>
    let counts := (uniqueList vals).map (fun v => (v, (vals.filter (· == v)).length))
    let maxCount := counts.foldl (fun acc p => max acc p.2) 0
    (sortByB strLeB ((counts.filter (fun p => p.2 == maxCount)).map Prod.fst)).headD "N/A"

/-- The alerts appended by `FinanceBotMemory._generate_spending_alerts`;
each constructor is one appended f-string, carrying the interpolated values:
`gastoAtipico` is "⚠️ Detectado gasto atípico muito alto" and
`concentracao c p` is "📊 Gastos concentrados em {c} ({p:.1f}%)"
(with `p` the percentage before formatting). -/
inductive Alert where
  | gastoAtipico : Alert
  | concentracao (categoria : String) (percentual : ℚ) : Alert
deriving DecidableEq, Repr

/-- Is an alert the category-concentration alert? -/
def isConcentracao : Alert → Bool
  | .concentracao _ _ => true
  | _ => false

/-- The first, "atypical high expense" part of
`FinanceBotMemory._generate_spending_alerts`: the alert list after the
`maior_gasto > media_gastos * 3` check. -/
def baseAlerts (stats : Option Estatisticas) : List Alert :=
  if statGetMaiorGasto stats > statGetMediaGastos stats * 3 then [.gastoAtipico]
  else []

/-- Models `FinanceBotMemory._generate_spending_alerts`: the atypical-high-expense
check followed by the category-concentration check
(`max_categoria / total > 0.6`, appending the alert that names
`categoria_gastos.idxmax()` and the percentage `max_categoria/total*100`). -/
def generateSpendingAlerts (df : List Record) (stats : Option Estatisticas) :
    List Alert :=
  let cg := gastosPorCategoria df
  if cg.isEmpty then baseAlerts stats
  else if seriesMaxVal cg / seriesSum cg > 3/5 then
    baseAlerts stats ++
      [.concentracao (seriesIdxmax cg) (seriesMaxVal cg / seriesSum cg * 100)]
  else baseAlerts stats

/-- Models `FinanceBotMemory._generate_recommendations`: fixed strings keyed by the
dominant category. -/
def generateRecommendations (stats : Option Estatisticas) : List String :=
  let categoriaDominante := statGetCategoriaMaisGasta stats ""
  if categoriaDominante = "Alimentação" then
    ["🍽️ Considere cozinhar mais em casa para economizar",
     "📝 Faça listas de compras para evitar gastos desnecessários"]
  else if categoriaDominante = "Lazer" then
    ["🎯 Defina um orçamento mensal para entretenimento",
     "🏠 Explore atividades gratuitas ou de baixo custo"]
  else if categoriaDominante = "Transporte" then
    ["🚗 Considere alternativas de transporte mais econômicas",
     "⛽ Monitore o consumo de combustível"]
  else []

/-- Day ordinal of a Gregorian date, so that pandas timestamp comparison is
ordinal comparison (proleptic Gregorian `toordinal`-style count). -/
def datumOrd (dt : Datum) : Nat :=
  let y := dt.year - 1
  let leap : Nat := if dt.year % 4 = 0 ∧ (dt.year % 100 ≠ 0 ∨ dt.year % 400 = 0) then 1 else 0
  let before : Nat :=
    [0, 31, 59, 90, 120, 151, 181, 212, 243, 273, 304, 334].getD (dt.month - 1) 0
  let leapAdj : Nat := if 3 ≤ dt.month then leap else 0
  365 * y + y / 4 - y / 100 + y / 400 + before + leapAdj + dt.day

/-- Date order used for `df["data"].max()`. -/
def datumLeB (a b : Datum) : Bool :=
  decide (datumOrd a ≤ datumOrd b)

/-- Models `Series.max()` over a date column (used for `ultima_ocorrencia`). -/
def listMaxDatum (l : List Datum) : Option Datum :=
  match l with
  | [] => none
  | d :: t => some (t.foldl (fun acc x => if datumLeB acc x then x else acc) d)

/-- One entry of the `gastos_recorrentes` insight list. -/
structure RecurringExpense where
  categoria : String
  valor : ℚ
  frequencia : Nat
  ultimaOcorrencia : Option Datum
deriving DecidableEq, Repr

/-- Models `FinanceBotMemory._identify_recurring_expenses`: per category, every
amount occurring at least twice, with its occurrence count and latest date;
the overall list is sorted by count descending and capped at 5. -/
def identifyRecurringExpenses (df : List Record) : List RecurringExpense :=
  let perCat := (uniqueList (df.map (·.categoria))).flatMap (fun cat =>
    let catDf := df.filter (fun r => r.categoria == cat)
    let catVals := catDf.map (·.valor)
    ((uniqueList catVals).filter (fun v => 2 ≤ (catVals.filter (· == v)).length)).map
      (fun v =>
        { categoria := cat
          valor := v
          frequencia := (catVals.filter (· == v)).length
          ultimaOcorrencia :=
            listMaxDatum ((catDf.filter (fun r => r.valor == v)).map (·.data)) }))
  (sortByB (fun x y => decide (y.frequencia ≤ x.frequencia)) perCat).take 5

/-- The `metas_sugeridas` dict of `FinanceBotMemory._suggest_budget_goals`
(`none` models the `{}` returned when the total is 0). -/
structure BudgetGoals where
  metaEconomiaMensal : ℚ
  metaCategoriaLimite : ℚ
  metaEmergencia : ℚ
deriving DecidableEq, Repr

/-- Models `FinanceBotMemory._suggest_budget_goals`. -/
def suggestBudgetGoals (stats : Option Estatisticas) : Option BudgetGoals :=
  let total := statGetTotalGastos stats
  if total = 0 then none
  else
    some
      { metaEconomiaMensal := total * (1/10) / 12
        metaCategoriaLimite := statGetMediaGastos stats * (3/2)
        metaEmergencia := total * (1/20) }

/-- The `self.user_profile` dict as filled by
`FinanceBotMemory._analyze_spending_patterns`. -/
structure UserProfile where
  totalGastos : ℚ
  mediaMensal : ℚ
  categoriaFavorita : String
  formaPagamentoPreferida : String
  tendenciaGastos : String
  alertasAtivos : List Alert
  recomendacoes : List String
deriving DecidableEq, Repr

/-- The `self.insights_cache` dict as filled by
`FinanceBotMemory._analyze_spending_patterns`. -/
structure InsightsCache where
  gastosPorCategoria : List (String × ℚ)
  gastosRecorrentes : List RecurringExpense
  metasSugeridas : Option BudgetGoals
deriving DecidableEq, Repr

/-- Models `FinanceBotMemory._analyze_spending_patterns` (only called on nonempty
data; the early return for an empty frame is reproduced by the caller). -/
def analyzeSpendingPatterns (df : List Record) : UserProfile × InsightsCache :=
  let stats := getEstatisticasBasicas df
  ({ totalGastos := statGetTotalGastos stats
     mediaMensal := getMonthlyAverage df
     categoriaFavorita := statGetCategoriaMaisGasta stats "N/A"
     formaPagamentoPreferida := getPreferredPayment df
     tendenciaGastos := getSpendingTrend df
     alertasAtivos := generateSpendingAlerts df stats
     recomendacoes := generateRecommendations stats },
   { gastosPorCategoria := gastosPorCategoria df
     gastosRecorrentes := identifyRecurringExpenses df
     metasSugeridas := suggestBudgetGoals stats })

/-- The mutable state of a `FinanceBotMemory` instance.  `none` models the
initial empty `user_profile`/`insights_cache` dicts and `last_update = None`. -/
structure MemoryState where
  userProfile : Option UserProfile
  insightsCache : Option InsightsCache
  lastUpdate : Option Nat
deriving DecidableEq, Repr

/-- Memory state right after `__init__` assigns the empty dicts. -/
def memInit : MemoryState :=
  { userProfile := none, insightsCache := none, lastUpdate := none }

/-- Models `FinanceBotMemory._load_user_profile`: full rebuild from a complete scan
of the ledger (`load_from_database`); on an empty frame nothing is analyzed
and `last_update` is not set. -/
def loadUserProfile (now : Nat) (ledger : List Record) (s : MemoryState) :
    MemoryState :=
  if ledger.isEmpty then s
  else
    let pi := analyzeSpendingPatterns ledger
    { userProfile := some pi.1, insightsCache := some pi.2, lastUpdate := some now }

/-- Models `FinanceBotMemory.update_memory`: recompute via `_load_user_profile` iff
`last_update` is unset or more than one hour (3600 s) old.  The boolean
reports whether the recompute was performed. -/
def updateMemory (now : Nat) (ledger : List Record) (s : MemoryState) :
    MemoryState × Bool :=
  match s.lastUpdate with
  | none => (loadUserProfile now ledger s, true)
  | some t => if 3600 < now - t then (loadUserProfile now ledger s, true) else (s, false)

/-! ## Example data -/

/-- A sample January 2024 expense row. -/
def exRecJan : Record :=
  { data := ⟨2024, 1, 10⟩, valor := 100, categoria := "Alimentação",
    descricao := "mercado", formaPagamento := "PIX" }

/-- A sample February 2024 expense row. -/
def exRecFeb : Record :=
  { data := ⟨2024, 2, 5⟩, valor := 50, categoria := "Transporte",
    descricao := "uber", formaPagamento := "PIX" }

/-- Two months of data, totals 100 then 50. -/
def exDfTwoMonths : List Record := [exRecJan, exRecFeb]

/-! ## C2: spending trend -/

/-- Reading `List.getD` at the first of the last two elements. -/
theorem getD_append_two_fst (l : List ℚ) (a b : ℚ) :
    (l ++ [a, b]).getD l.length 0 = a := by
  induction l with
  | nil => rfl
  | cons x xs ih => simpa using ih

/-- Reading `List.getD` at the last of the last two elements. -/
theorem getD_append_two_snd (l : List ℚ) (a b : ℚ) :
    (l ++ [a, b]).getD (l.length + 1) 0 = b := by
  induction l with
  | nil => rfl
  | cons x xs ih => simpa using ih

/-- C2 counterexample: with a single month of data (fewer than two months),
`_get_spending_trend` returns "Estável" (Stable), not "Indefinido" (Unknown)
as the claim states. -/
theorem C2_counterexample :
    getSpendingTrend [exRecJan] = "Estável"
    ∧ getSpendingTrend [exRecJan] ≠ "Indefinido" := by
  have h1 : getSpendingTrend [exRecJan] = "Estável" := by
    norm_num [getSpendingTrend, monthlyTotals, uniqueList, sortByB, insertSorted,
      monthKey, monthLeB, exRecJan]
  exact ⟨h1, by rw [h1]; decide⟩

/-- C2 (amended): the trend compares the two most recent calendar-month
totals and returns Rising ("Crescente") when the latest is greater, Falling
("Decrescente") when smaller, and Stable ("Estável") when equal; but with
fewer than two months of data it also returns Stable ("Estável") — Unknown
("Indefinido") is only the unreachable internal-error fallback. -/
theorem C2_trend :
    (∀ (df : List Record) (l : List ℚ) (a b : ℚ),
      (monthlyTotals df).map Prod.snd = l ++ [a, b] →
      getSpendingTrend df =
        (if a < b then "Crescente" else if b < a then "Decrescente" else "Estável"))
    ∧ (∀ df : List Record,
        ((monthlyTotals df).map Prod.snd).length < 2 →
        getSpendingTrend df = "Estável") := by
  constructor
  · intro df l a b h
    have e : getSpendingTrend df =
        (let vs := (monthlyTotals df).map Prod.snd
         if 2 ≤ vs.length then
           if vs.getD (vs.length - 2) 0 < vs.getD (vs.length - 1) 0 then "Crescente"
           else if vs.getD (vs.length - 1) 0 < vs.getD (vs.length - 2) 0 then "Decrescente"
           else "Estável"
         else "Estável") := rfl
    rw [e]
    simp only [h]
    have hlen : (l ++ [a, b]).length = l.length + 2 := by simp
    rw [hlen, if_pos (by omega), show l.length + 2 - 2 = l.length from by omega,
      show l.length + 2 - 1 = l.length + 1 from by omega,
      getD_append_two_fst, getD_append_two_snd]
  · intro df h
    have e : getSpendingTrend df =
        (let vs := (monthlyTotals df).map Prod.snd
         if 2 ≤ vs.length then
           if vs.getD (vs.length - 2) 0 < vs.getD (vs.length - 1) 0 then "Crescente"
           else if vs.getD (vs.length - 1) 0 < vs.getD (vs.length - 2) 0 then "Decrescente"
           else "Estável"
         else "Estável") := rfl
    rw [e]
    simp only []
    rw [if_neg (by omega)]

/-- Witness for C2: concrete evaluations of the amended theorem.  With months
totalling 100 then 50 the trend is the Falling branch; with one month it is
"Estável". -/
theorem C2_witness :
    (getSpendingTrend exDfTwoMonths =
      (if (100 : ℚ) < 50 then "Crescente"
       else if (50 : ℚ) < 100 then "Decrescente" else "Estável"))
    ∧ getSpendingTrend [exRecJan] = "Estável" :=
  ⟨C2_trend.1 exDfTwoMonths [] 100 50 (by
      norm_num [monthlyTotals, uniqueList, sortByB, insertSorted, monthKey, monthLeB,
        exDfTwoMonths, exRecJan, exRecFeb]),
   C2_trend.2 [exRecJan] (by
      norm_num [monthlyTotals, uniqueList, sortByB, insertSorted, monthKey, monthLeB,
        exRecJan])⟩

/-! ## C5: memory refresh idempotence within the staleness window -/

/-- C5: once a profile has been computed (ledger nonempty, so the recompute
at time `t` set `last_update`), any two further `update_memory` calls at a
time `now` within the one-hour staleness window are no-ops: neither performs
the recompute (boolean `false`) and the state — hence every profile value —
is exactly the one produced by the single recompute at `t`. -/
theorem C5_refresh_idempotent (ledger : List Record) (s0 : MemoryState)
    (t now : Nat) (hne : ledger ≠ []) (hwin : now - t ≤ 3600) :
    updateMemory now ledger (loadUserProfile t ledger s0)
      = (loadUserProfile t ledger s0, false)
    ∧ updateMemory now ledger
        (updateMemory now ledger (loadUserProfile t ledger s0)).1
      = (loadUserProfile t ledger s0, false) := by
  have hlu : (loadUserProfile t ledger s0).lastUpdate = some t := by
    cases ledger with
    | nil => exact absurd rfl hne
    | cons r rs => simp [loadUserProfile]
  have h1 : updateMemory now ledger (loadUserProfile t ledger s0)
      = (loadUserProfile t ledger s0, false) := by
    simp only [updateMemory, hlu]
    rw [if_neg (by omega)]
  refine ⟨h1, ?_⟩
  rw [h1]
  exact h1

/-- Witness for C5: a concrete one-row ledger, recompute at `t = 0`, two
refreshes at `now = 1000` (within the hour). -/
theorem C5_witness :
    updateMemory 1000 [exRecJan] (loadUserProfile 0 [exRecJan] memInit)
      = (loadUserProfile 0 [exRecJan] memInit, false)
    ∧ updateMemory 1000 [exRecJan]
        (updateMemory 1000 [exRecJan] (loadUserProfile 0 [exRecJan] memInit)).1
      = (loadUserProfile 0 [exRecJan] memInit, false) :=
  C5_refresh_idempotent [exRecJan] memInit 0 1000 (List.cons_ne_nil _ _) (by omega)

/-! ## C8: category-concentration alert -/

/-- The running argmax fold of `seriesIdxmax` ends at the unique strict
maximum. -/
theorem foldl_argmax_eq (c : String) (v : ℚ) :
    ∀ (t : List (String × ℚ)) (best : String × ℚ),
      (best = (c, v) ∨ best.2 < v) →
      ((c, v) ∈ t ∨ best = (c, v)) →
      (∀ q ∈ t, q ≠ (c, v) → q.2 < v) →
      t.foldl (fun b q => if q.2 > b.2 then q else b) best = (c, v) := by
  intro t
  induction t with
  | nil =>
    intro best _ h2 _
    rcases h2 with h2 | h2
    · exact absurd h2 (List.not_mem_nil _)
    · simpa using h2
  | cons q t ih =>
    intro best h1 h2 h3
    simp only [List.foldl_cons]
    apply ih
    · by_cases hgt : q.2 > best.2
      · rw [if_pos hgt]
        by_cases hq : q = (c, v)
        · exact Or.inl hq
        · exact Or.inr (h3 q (List.mem_cons_self _ _) hq)
      · rw [if_neg hgt]
        exact h1
    · by_cases hq : q = (c, v)
      · by_cases hgt : q.2 > best.2
        · rw [if_pos hgt]
          exact Or.inr hq
        · rw [if_neg hgt]
          rcases h1 with h1 | h1
          · exact Or.inr h1
          · exact absurd (by rw [hq]; exact h1) hgt
      · rcases h2 with h2 | h2
        · rcases List.mem_cons.mp h2 with h | h
          · exact absurd h.symm hq
          · exact Or.inl h
        · have hqlt : q.2 < v := h3 q (List.mem_cons_self _ _) hq
          right
          rw [if_neg (by rw [h2]; exact not_lt.mpr (le_of_lt hqlt))]
          exact h2
    · intro p hp hpv
      exact h3 p (List.mem_cons_of_mem _ hp) hpv

/-- The running max fold of `seriesMaxVal` reaches a value that bounds the
list and is attained, hence equals the unique strict maximum value. -/
theorem foldl_max_pairs_eq (v : ℚ) :
    ∀ (t : List (String × ℚ)) (a : ℚ),
      a ≤ v →
      ((∃ q ∈ t, q.2 = v) ∨ a = v) →
      (∀ q ∈ t, q.2 ≤ v) →
      t.foldl (fun acc q => max acc q.2) a = v := by
  intro t
  induction t with
  | nil =>
    intro a _ h2 _
    rcases h2 with ⟨q, hq, _⟩ | h2
    · exact absurd hq (List.not_mem_nil _)
    · exact h2
  | cons q t ih =>
    intro a h1 h2 h3
    simp only [List.foldl_cons]
    apply ih
    · exact max_le h1 (h3 q (List.mem_cons_self _ _))
    · rcases h2 with ⟨p, hp, hpv⟩ | h2
      · rcases List.mem_cons.mp hp with h | h
        · have hqv : q.2 = v := by rw [← h]; exact hpv
          exact Or.inr (by rw [hqv]; exact max_eq_right h1)
        · exact Or.inl ⟨p, h, hpv⟩
      · refine Or.inr ?_
        rw [h2]
        exact max_eq_left (h3 q (List.mem_cons_self _ _))
    · intro p hp
      exact h3 p (List.mem_cons_of_mem _ hp)

/-- The running max fold either keeps its seed or returns a member value. -/
theorem foldl_max_pairs_attained :
    ∀ (t : List (String × ℚ)) (a : ℚ),
      t.foldl (fun acc q => max acc q.2) a = a
      ∨ ∃ q ∈ t, q.2 = t.foldl (fun acc q => max acc q.2) a := by
  intro t
  induction t with
  | nil => intro a; exact Or.inl rfl
  | cons q t ih =>
    intro a
    simp only [List.foldl_cons]
    rcases ih (max a q.2) with h | ⟨p, hp, hpv⟩
    · rw [h]
      rcases max_choice a q.2 with h2 | h2
      · exact Or.inl h2
      · exact Or.inr ⟨q, List.mem_cons_self _ _, h2.symm⟩
    · exact Or.inr ⟨p, List.mem_cons_of_mem _ hp, hpv⟩

/-- Lemma: `Series.max()` of a nonempty series is attained by some entry. -/
theorem seriesMaxVal_attained (l : List (String × ℚ)) (hne : l ≠ []) :
    ∃ q ∈ l, q.2 = seriesMaxVal l := by
  cases l with
  | nil => exact absurd rfl hne
  | cons p t =>
    simp only [seriesMaxVal]
    rcases foldl_max_pairs_attained t p.2 with h | ⟨q, hq, hqv⟩
    · exact ⟨p, List.mem_cons_self _ _, h.symm⟩
    · exact ⟨q, List.mem_cons_of_mem _ hq, hqv⟩

/-- Lemma: `Series.max()` at a unique strict maximum entry. -/
theorem seriesMaxVal_of_unique_max (l : List (String × ℚ)) (c : String) (v : ℚ)
    (hmem : (c, v) ∈ l) (hlt : ∀ p ∈ l, p ≠ (c, v) → p.2 < v) :
    seriesMaxVal l = v := by
  cases l with
  | nil => exact absurd hmem (List.not_mem_nil _)
  | cons p t =>
    simp only [seriesMaxVal]
    apply foldl_max_pairs_eq
    · by_cases hp : p = (c, v)
      · rw [hp]
      · exact le_of_lt (hlt p (List.mem_cons_self _ _) hp)
    · rcases List.mem_cons.mp hmem with h | h
      · exact Or.inr (by rw [← h])
      · exact Or.inl ⟨(c, v), h, rfl⟩
    · intro q hq
      by_cases hqe : q = (c, v)
      · rw [hqe]
      · exact le_of_lt (hlt q (List.mem_cons_of_mem _ hq) hqe)

/-- Lemma: `Series.idxmax()` at a unique strict maximum entry. -/
theorem seriesIdxmax_of_unique_max (l : List (String × ℚ)) (c : String) (v : ℚ)
    (hmem : (c, v) ∈ l) (hlt : ∀ p ∈ l, p ≠ (c, v) → p.2 < v) :
    seriesIdxmax l = c := by
  cases l with
  | nil => exact absurd hmem (List.not_mem_nil _)
  | cons p t =>
    simp only [seriesIdxmax]
    rw [foldl_argmax_eq c v t p
      (by
        by_cases hp : p = (c, v)
        · exact Or.inl hp
        · exact Or.inr (hlt p (List.mem_cons_self _ _) hp))
      (by
        rcases List.mem_cons.mp hmem with h | h
        · exact Or.inr h.symm
        · exact Or.inl h)
      (fun q hq => hlt q (List.mem_cons_of_mem _ hq))]

/-- The atypical-high-expense prefix of the alert list contains no
concentration alert. -/
theorem filter_isConcentracao_baseAlerts (stats : Option Estatisticas) :
    (baseAlerts stats).filter isConcentracao = [] := by
  unfold baseAlerts
  split
  · rfl
  · rfl

/-- C8: whenever the category breakdown has exactly one entry `(c, v)` whose
share of total spend exceeds 60%, the alert list of each refresh contains exactly
one concentration alert; that alert names `c` and carries the percentage
share `v/total*100`, which is at least 60.  When no share of an entry exceeds
60%, no concentration alert is produced. -/
theorem C8_concentration_alert :
    (∀ (df : List Record) (c : String) (v : ℚ),
      (c, v) ∈ gastosPorCategoria df →
      0 < seriesSum (gastosPorCategoria df) →
      v / seriesSum (gastosPorCategoria df) > 3/5 →
      (∀ p ∈ gastosPorCategoria df, p ≠ (c, v) →
        p.2 / seriesSum (gastosPorCategoria df) ≤ 3/5) →
      ((generateSpendingAlerts df (getEstatisticasBasicas df)).filter isConcentracao
          = [Alert.concentracao c (v / seriesSum (gastosPorCategoria df) * 100)]
        ∧ v / seriesSum (gastosPorCategoria df) * 100 ≥ 60))
    ∧ (∀ df : List Record,
        (∀ p ∈ gastosPorCategoria df,
          p.2 / seriesSum (gastosPorCategoria df) ≤ 3/5) →
        (generateSpendingAlerts df (getEstatisticasBasicas df)).filter isConcentracao
          = []) := by
  constructor
  · intro df c v hmem hS hgt hothers
    have hne : gastosPorCategoria df ≠ [] := List.ne_nil_of_mem hmem
    have hvgt : 3/5 * seriesSum (gastosPorCategoria df) < v :=
      (lt_div_iff₀ hS).mp hgt
    have hlt : ∀ p ∈ gastosPorCategoria df, p ≠ (c, v) → p.2 < v := by
      intro p hp hpe
      have hple : p.2 ≤ 3/5 * seriesSum (gastosPorCategoria df) :=
        (div_le_iff₀ hS).mp (hothers p hp hpe)
      exact lt_of_le_of_lt hple hvgt
    have hmax : seriesMaxVal (gastosPorCategoria df) = v :=
      seriesMaxVal_of_unique_max _ c v hmem hlt
    have hidx : seriesIdxmax (gastosPorCategoria df) = c :=
      seriesIdxmax_of_unique_max _ c v hmem hlt
    have hemp : (gastosPorCategoria df).isEmpty = false := by
      cases hcg : gastosPorCategoria df with
      | nil => exact absurd hcg hne
      | cons p t => rfl
    constructor
    · simp only [generateSpendingAlerts, hemp, Bool.false_eq_true, if_false, hmax, hidx]
      rw [if_pos hgt, List.filter_append, filter_isConcentracao_baseAlerts]
      rfl
    · have h60 : (3/5 : ℚ) < v / seriesSum (gastosPorCategoria df) := hgt
      have : (60 : ℚ) < v / seriesSum (gastosPorCategoria df) * 100 := by linarith
      exact le_of_lt this
  · intro df hall
    cases hcg : gastosPorCategoria df with
    | nil =>
      simp only [generateSpendingAlerts, hcg, List.isEmpty_nil, if_true]
      exact filter_isConcentracao_baseAlerts _
    | cons p t =>
      have hne : gastosPorCategoria df ≠ [] := by rw [hcg]; exact List.cons_ne_nil _ _
      obtain ⟨q, hq, hqv⟩ := seriesMaxVal_attained (gastosPorCategoria df) hne
      have hmle : seriesMaxVal (gastosPorCategoria df) /
          seriesSum (gastosPorCategoria df) ≤ 3/5 := by
        rw [← hqv]
        exact hall q hq
      have hemp : (gastosPorCategoria df).isEmpty = false := by
        rw [hcg]; rfl
      simp only [generateSpendingAlerts, hemp, Bool.false_eq_true, if_false]
      rw [if_neg (not_lt.mpr hmle)]
      exact filter_isConcentracao_baseAlerts _

/-- Example data where one category concentrates 70% of spend. -/
def exDfConc : List Record :=
  [{ data := ⟨2024, 1, 1⟩, valor := 70, categoria := "Alimentação",
     descricao := "a", formaPagamento := "PIX" },
   { data := ⟨2024, 1, 2⟩, valor := 30, categoria := "Lazer",
     descricao := "b", formaPagamento := "PIX" }]

/-- Example data where both categories hold exactly 50%. -/
def exDfBal : List Record :=
  [{ data := ⟨2024, 1, 1⟩, valor := 50, categoria := "Alimentação",
     descricao := "a", formaPagamento := "PIX" },
   { data := ⟨2024, 1, 2⟩, valor := 50, categoria := "Lazer",
     descricao := "b", formaPagamento := "PIX" }]

/-- Witness for C8: the concentration theorem evaluated on concrete data,
70%/30% for the alert case and 50%/50% for the no-alert case. -/
theorem C8_witness :
    ((generateSpendingAlerts exDfConc (getEstatisticasBasicas exDfConc)).filter
        isConcentracao
      = [Alert.concentracao "Alimentação"
          (70 / seriesSum (gastosPorCategoria exDfConc) * 100)]
     ∧ 70 / seriesSum (gastosPorCategoria exDfConc) * 100 ≥ 60)
    ∧ (generateSpendingAlerts exDfBal (getEstatisticasBasicas exDfBal)).filter
        isConcentracao = [] :=
  ⟨C8_concentration_alert.1 exDfConc "Alimentação" 70
    (by norm_num +decide [gastosPorCategoria, uniqueList, sortByB, insertSorted, strLeB, exDfConc])
    (by norm_num +decide [gastosPorCategoria, seriesSum, uniqueList, sortByB, insertSorted, strLeB,
        exDfConc])
    (by norm_num +decide [gastosPorCategoria, seriesSum, uniqueList, sortByB, insertSorted, strLeB,
        exDfConc])
    (by norm_num +decide [gastosPorCategoria, seriesSum, uniqueList, sortByB, insertSorted, strLeB,
        exDfConc]),
   C8_concentration_alert.2 exDfBal
    (by norm_num +decide [gastosPorCategoria, seriesSum, uniqueList, sortByB, insertSorted, strLeB,
        exDfBal])⟩

/-! ## Finance agent (`src/finance_agent.py`) -/

/-- The `categoria_map` synonym table of `FinanceBot._add_expense`. -/
def categoriaMapList : List (String × String) :=
  [("comida", "Alimentação"), ("food", "Alimentação"), ("supermercado", "Alimentação"),
   ("gasolina", "Transporte"), ("uber", "Transporte"), ("onibus", "Transporte"),
   ("cinema", "Lazer"), ("streaming", "Lazer"), ("diversão", "Lazer"),
   ("médico", "Saúde"), ("farmacia", "Saúde"), ("remedio", "Saúde")]

/-- The fixed category set accepted by `FinanceBot._add_expense`. -/
def categoriasValidas : List String :=
  ["Alimentação", "Transporte", "Lazer", "Saúde", "Roupas", "Mensalidades", "Outros"]

/-- ASCII lower-casing of one character, as Python `str.lower` acts on the
ASCII range (the inputs the source compares are ASCII or already lowercase). -/
def lowerChar (c : Char) : Char :=
  if 'A' ≤ c ∧ c ≤ 'Z' then Char.ofNat (c.toNat + 32) else c

/-- Models `str.lower()` over the characters of a string. -/
def lowerList (l : List Char) : List Char :=
  l.map lowerChar

/-- Models `categoria_map.get(categoria.lower(), categoria)` followed by the
membership check against the fixed category list, falling back to "Outros". -/
def mapCategoria (categoria : String) : String :=
  let lowered : String := ⟨lowerList categoria.toList⟩
  let mapped :=
    match categoriaMapList.find? (fun p => p.1 == lowered) with
    | some p => p.2
    | none => categoria
  if mapped ∈ categoriasValidas then mapped else "Outros"

/-- The return value of `FinanceBot._add_expense`, one constructor per
returned string: `valorInvalido` is "O valor precisa ser maior que zero.",
`registrado v c d` is the "✅ Registrado: ..." confirmation interpolating the
stored amount/category/description, and `falhaSalvar` is
"❌ Não consegui salvar. Tente novamente.". -/
inductive RegisterResult where
  | valorInvalido : RegisterResult
  | registrado (valor : ℚ) (categoria : String) (descricao : String) : RegisterResult
  | falhaSalvar : RegisterResult
deriving DecidableEq, Repr

/-- Models `FinanceBot._add_expense`: validates `valor > 0`, maps the category,
appends the new row to the ledger (when the store insert succeeds, abstracted
by `insertOk`), and then forces `memory.update_memory()`.  Returns the reply
together with the resulting ledger and memory state. -/
def addExpense (valor : ℚ) (categoria descricao : String) (today : Datum)
    (insertOk : Bool) (now : Nat) (ledger : List Record) (mem : MemoryState) :
    RegisterResult × List Record × MemoryState :=
  if valor ≤ 0 then (.valorInvalido, ledger, mem)
  else
    let categoriaFinal := mapCategoria categoria
    let novo : Record :=
      { data := today, valor := valor, categoria := categoriaFinal,
        descricao := descricao, formaPagamento := "FinanceBot" }
    if insertOk then
      let ledger2 := ledger ++ [novo]
      ((.registrado valor categoriaFinal descricao), ledger2,
        (updateMemory now ledger2 mem).1)
    else (.falhaSalvar, ledger, mem)

/-- C9: a registration request with `amount ≤ 0` returns the fixed validation
reply ("O valor precisa ser maior que zero.") without failing, and the error
path is atomic: the ledger gets no new record and the memory profile is not
refreshed (both are returned unchanged). -/
theorem C9_nonpositive_amount_atomic (valor : ℚ) (categoria descricao : String)
    (today : Datum) (insertOk : Bool) (now : Nat) (ledger : List Record)
    (mem : MemoryState) (h : valor ≤ 0) :
    addExpense valor categoria descricao today insertOk now ledger mem
      = (.valorInvalido, ledger, mem) := by
  unfold addExpense
  rw [if_pos h]

/-- Witness for C9: registering an amount of 0 on a concrete state. -/
theorem C9_witness :
    addExpense 0 "comida" "almoço" ⟨2024, 3, 1⟩ true 0 [exRecJan] memInit
      = (.valorInvalido, [exRecJan], memInit) :=
  C9_nonpositive_amount_atomic 0 "comida" "almoço" ⟨2024, 3, 1⟩ true 0 [exRecJan]
    memInit le_rfl

/-! ## Period descriptors and the period query (`_query_expenses_by_period`) -/

/-- The period-descriptor dict produced by `FinanceBot._parse_date_query` and
consumed by `_query_expenses_by_period` (`month`/`year` are read with `.get`,
hence optional). -/
structure PeriodInfo where
  type : String
  month : Option Nat
  year : Option Nat
  description : String
deriving DecidableEq, Repr

/-- The kinds `_query_expenses_by_period` has a branch for. -/
def knownPeriodTypes : List String :=
  ["specific_month", "current_month", "last_month", "last_7_days", "current_year"]

/-- Models `FinanceBot._query_expenses_by_period`: dispatch on `period_info["type"]`;
the final `else` returns the whole dataframe, and the `except` fallback to an
empty frame is unreachable in this total embedding.  Comparing a column with a
missing (`None`) month/year matches no row, which `some r.data.month == p.month`
reproduces. -/
def queryExpensesByPeriod (p : PeriodInfo) (now : Datum) (ledger : List Record) :
    List Record :=
  if ledger.isEmpty then ledger
  else if p.type = "specific_month" then
    ledger.filter (fun r => some r.data.month == p.month && some r.data.year == p.year)
  else if p.type = "current_month" then
    ledger.filter (fun r => r.data.month == now.month && r.data.year == now.year)
  else if p.type = "last_month" then
    ledger.filter (fun r => some r.data.month == p.month && some r.data.year == p.year)
  else if p.type = "last_7_days" then
    ledger.filter (fun r => datumOrd now ≤ datumOrd r.data + 7)
  else if p.type = "current_year" then
    ledger.filter (fun r => some r.data.year == p.year)
  else ledger

/-- C10: the period query is total — for every descriptor (any `type` string,
possibly missing month/year) and every ledger it returns a sub-sequence of the
ledger — and a descriptor whose kind matches none of the five known period
kinds returns the entire unfiltered ledger. -/
theorem C10_query_total :
    (∀ (p : PeriodInfo) (now : Datum) (ledger : List Record),
      (queryExpensesByPeriod p now ledger).Sublist ledger)
    ∧ (∀ (p : PeriodInfo) (now : Datum) (ledger : List Record),
        p.type ∉ knownPeriodTypes →
        queryExpensesByPeriod p now ledger = ledger) := by
  constructor
  · intro p now ledger
    unfold queryExpensesByPeriod
    split
    · exact List.Sublist.refl _
    · split
      · exact List.filter_sublist _
      · split
        · exact List.filter_sublist _
        · split
          · exact List.filter_sublist _
          · split
            · exact List.filter_sublist _
            · split
              · exact List.filter_sublist _
              · exact List.Sublist.refl _
  · intro p now ledger h
    simp only [knownPeriodTypes, List.mem_cons, List.not_mem_nil, or_false,
      not_or] at h
    obtain ⟨h1, h2, h3, h4, h5⟩ := h
    simp [queryExpensesByPeriod, h1, h2, h3, h4, h5]

/-- Witness for C10: a descriptor of the unknown kind "all_time" returns the
whole concrete ledger. -/
theorem C10_witness :
    queryExpensesByPeriod ⟨"all_time", none, none, "tudo"⟩ ⟨2025, 6, 15⟩ [exRecJan]
      = [exRecJan] :=
  C10_query_total.2 ⟨"all_time", none, none, "tudo"⟩ ⟨2025, 6, 15⟩ [exRecJan]
    (by decide)

/-! ## Period resolver (`FinanceBot._parse_date_query`) -/

/-- Predicate `\d` for ASCII characters. -/
def isDigitC (c : Char) : Bool :=
  '0' ≤ c && c ≤ '9'

/-- Numeric value of an ASCII digit. -/
def digitVal (c : Char) : Nat :=
  c.toNat - '0'.toNat

/-- Boolean prefix test on character lists. -/
def isPrefixList : List Char → List Char → Bool
  | [], _ => true
  | _ :: _, [] => false
  | p :: ps, c :: cs => p == c && isPrefixList ps cs

/-- Boolean substring test on character lists (Python `in` on strings). -/
def isInfixList (pat : List Char) : List Char → Bool
  | [] => pat.isEmpty
  | c :: t => isPrefixList pat (c :: t) || isInfixList pat t

/-- Whitespace stripped by Python `str.strip()`. -/
def isSpaceC (c : Char) : Bool :=
  c == ' ' || c == '\t' || c == '\n' || c == '\r'

/-- Models `str.strip()`. -/
def trimChars (l : List Char) : List Char :=
  ((l.dropWhile isSpaceC).reverse.dropWhile isSpaceC).reverse

/-- Models `message.lower().strip()` of `_parse_date_query`, as a character list. -/
def normalizeMsg (message : String) : List Char :=
  trimChars (lowerList message.toList)

/-- The `months_pt` dict of `_parse_date_query`, in its insertion (iteration)
order. -/
def monthsPt : List (String × Nat) :=
  [("janeiro", 1), ("jan", 1), ("fevereiro", 2), ("fev", 2), ("marco", 3), ("mar", 3),
   ("abril", 4), ("abr", 4), ("maio", 5), ("mai", 5), ("junho", 6), ("jun", 6),
   ("julho", 7), ("jul", 7), ("agosto", 8), ("ago", 8), ("setembro", 9), ("set", 9),
   ("outubro", 10), ("out", 10), ("novembro", 11), ("nov", 11), ("dezembro", 12),
   ("dez", 12)]

/-- The month-name loop of `_parse_date_query`: the first dict entry whose
name occurs in the message as `"<name> de 2024"` or `"<name>/2024"`. -/
def findMonthName2024 (ml : List Char) : Option (String × Nat) :=
  monthsPt.find? (fun p =>
    isInfixList (p.1 ++ " de 2024").toList ml || isInfixList (p.1 ++ "/2024").toList ml)

/-- Python `str.capitalize()`: upper-case the first character, lower-case the
rest (ASCII, as used on the lowercase month names). -/
def capitalizeStr (s : String) : String :=
  match s.toList with
  | [] => ""
  | c :: t =>
    ⟨(if 'a' ≤ c ∧ c ≤ 'z' then Char.ofNat (c.toNat - 32) else c) :: lowerList t⟩

/-- The `months_names` list of `_parse_date_query` (index 0 unused). -/
def monthsNames : List String :=
  ["", "Janeiro", "Fevereiro", "Março", "Abril", "Maio", "Junho",
   "Julho", "Agosto", "Setembro", "Outubro", "Novembro", "Dezembro"]

/-- Pattern `\d{4}` at the start of the list: exactly four digits read as a year
(any further characters are ignored, as in `re.search`). -/
def takeYear : List Char → Option Nat
  | y1 :: y2 :: y3 :: y4 :: _ =>
    if isDigitC y1 && isDigitC y2 && isDigitC y3 && isDigitC y4 then
      some (1000 * digitVal y1 + 100 * digitVal y2 + 10 * digitVal y3 + digitVal y4)
    else none
  | _ => none

/-- One anchored attempt of the pattern `(\d{1,2})/(\d{4})` with the Python
greedy backtracking: two month digits are tried first, then one. -/
def matchMMYYYYAt : List Char → Option (Nat × Nat)
  | c1 :: c2 :: rest =>
    if isDigitC c1 then
      if isDigitC c2 then
        match rest with
        | '/' :: rest2 => (takeYear rest2).map (fun y => (10 * digitVal c1 + digitVal c2, y))
        | _ => none
      else if c2 == '/' then
        (takeYear rest).map (fun y => (digitVal c1, y))
      else none
    else none
  | _ => none

/-- Models `re.search(r"(\d{1,2})/(\d{4})", ...)`: the match at the leftmost
position where the anchored attempt succeeds. -/
def searchMMYYYY : List Char → Option (Nat × Nat)
  | [] => none
  | c :: t =>
    match matchMMYYYYAt (c :: t) with
    | some r => some r
    | none => searchMMYYYY t

/-- The default descriptor of `_parse_date_query`: the current month,
anchored to `now`, described as "este mês". -/
def currentMonthDefault (now : Datum) : PeriodInfo :=
  { type := "current_month", month := some now.month, year := some now.year,
    description := "este mês" }

/-- Models `FinanceBot._parse_date_query`: month-name + 2024 forms first, then the
first numeric `MM/YYYY` token if its month lies in 1..12, else the
current-month default. -/
def parseDateQuery (message : String) (now : Datum) : PeriodInfo :=
  match findMonthName2024 (normalizeMsg message) with
  | some p =>
    { type := "specific_month", month := some p.2, year := some 2024,
      description := capitalizeStr p.1 ++ " de 2024" }
  | none =>
    match searchMMYYYY (normalizeMsg message) with
    | some my =>
      if 1 ≤ my.1 ∧ my.1 ≤ 12 then
        { type := "specific_month", month := some my.1, year := some my.2,
          description := monthsNames.getD my.1 "" ++ " de " ++ toString my.2 }
      else currentMonthDefault now
    | none => currentMonthDefault now

/-- A fixed "now" used in concrete evaluations. -/
def exNow : Datum := ⟨2025, 6, 15⟩

/-! ## C3: relative-period phrases -/

/-- C3: the resolver has no rule for relative-period phrases.  Evaluating the
advertised utterances "Analise meus gastos dos últimos 7 dias" (the example advertised by the chat
interface itself) and an "este ano" query shows both resolve to the
current-month default, never to the `last_7_days` / `current_year` kinds that
`_query_expenses_by_period` implements (those branches are dead code). -/
theorem C3_relative_phrases_unreachable :
    parseDateQuery "Analise meus gastos dos últimos 7 dias" exNow
      = currentMonthDefault exNow
    ∧ parseDateQuery "como estão meus gastos este ano" exNow
      = currentMonthDefault exNow
    ∧ (currentMonthDefault exNow).type ≠ "last_7_days"
    ∧ (currentMonthDefault exNow).type ≠ "current_year" := by
  refine ⟨?_, ?_, by decide, by decide⟩
  · decide
  · decide

/-! ## C6: explicit month + year mentions -/

/-- C6 counterexample: "quanto gastei em janeiro de 2023" contains a
localized month name followed by a 4-digit year, yet the resolver returns the
current-month default, not `specific_month` 1/2023 — the month-name surface
form is hard-coded to the year 2024. -/
theorem C6_counterexample :
    parseDateQuery "quanto gastei em janeiro de 2023" exNow
      = currentMonthDefault exNow
    ∧ (parseDateQuery "quanto gastei em janeiro de 2023" exNow).type
        ≠ "specific_month" := by
  constructor
  · decide
  · decide

/-- C6 (amended): the month-name surface form is recognized only together
with the literal year 2024 — when the month-name scan finds an entry
`(name, num)` the resolver returns `specific_month` for `num`/2024 with the
capitalized label; and for utterances with no month-name-2024 match whose
first numeric `MM/YYYY` token has month in 1..12, it returns `specific_month`
with exactly that parsed month and year and the human-readable label. -/
theorem C6_month_year_resolution :
    (∀ (message : String) (now : Datum) (name : String) (num : Nat),
      findMonthName2024 (normalizeMsg message) = some (name, num) →
      parseDateQuery message now =
        { type := "specific_month", month := some num, year := some 2024,
          description := capitalizeStr name ++ " de 2024" })
    ∧ (∀ (message : String) (now : Datum) (m y : Nat),
        findMonthName2024 (normalizeMsg message) = none →
        searchMMYYYY (normalizeMsg message) = some (m, y) →
        1 ≤ m → m ≤ 12 →
        parseDateQuery message now =
          { type := "specific_month", month := some m, year := some y,
            description := monthsNames.getD m "" ++ " de " ++ toString y }) := by
  constructor
  · intro message now name num h
    unfold parseDateQuery
    rw [h]
  · intro message now m y h1 h2 hm1 hm2
    unfold parseDateQuery
    simp only [h1, h2]
    rw [if_pos ⟨hm1, hm2⟩]

/-- Witness for C6: the month-name branch on "gastos de janeiro de 2024" and
the numeric branch on "resumo 05/2024". -/
theorem C6_witness :
    parseDateQuery "gastos de janeiro de 2024" exNow =
      { type := "specific_month", month := some 1, year := some 2024,
        description := capitalizeStr "janeiro" ++ " de 2024" }
    ∧ parseDateQuery "resumo 05/2024" exNow =
      { type := "specific_month", month := some 5, year := some 2024,
        description := monthsNames.getD 5 "" ++ " de " ++ toString 2024 } :=
  ⟨C6_month_year_resolution.1 "gastos de janeiro de 2024" exNow "janeiro" 1 (by decide),
   C6_month_year_resolution.2 "resumo 05/2024" exNow 5 2024 (by decide) (by decide)
     (by decide) (by decide)⟩

/-! ## C7: out-of-range numeric months and malformed input -/

/-- C7 counterexample: the utterance "janeiro de 2024 13/2024" has a numeric
`MM/YYYY` token whose month 13 is outside 1..12, yet the resolver returns a
`specific_month` descriptor (the month-name rule fires first), contradicting
"returns the current_month descriptor ..., never a specific_month" as a
statement about every such utterance. -/
theorem C7_counterexample :
    searchMMYYYY (normalizeMsg "janeiro de 2024 13/2024") = some (13, 2024)
    ∧ (parseDateQuery "janeiro de 2024 13/2024" exNow).type = "specific_month" := by
  constructor
  · decide
  · decide

/-- C7 (amended): the resolver is total and degrades to the default — for
every utterance with no month-name-2024 match in which every match of the
numeric `MM/YYYY` pattern has month outside 1..12 (in particular for every
malformed input with no match at all), it returns the current-month
descriptor anchored to `now`, never a `specific_month`. -/
theorem C7_malformed_degrades_to_default (message : String) (now : Datum)
    (h1 : findMonthName2024 (normalizeMsg message) = none)
    (h2 : ∀ m y, searchMMYYYY (normalizeMsg message) = some (m, y) →
      ¬(1 ≤ m ∧ m ≤ 12)) :
    parseDateQuery message now = currentMonthDefault now := by
  unfold parseDateQuery
  simp only [h1]
  cases hs : searchMMYYYY (normalizeMsg message) with
  | none => rfl
  | some my =>
    simp only []
    rw [if_neg (h2 my.1 my.2 (by rw [hs]))]

/-- Witness for C7: the out-of-range token "13/2024" alone resolves to the
current-month default. -/
theorem C7_witness :
    parseDateQuery "13/2024" exNow = currentMonthDefault exNow :=
  C7_malformed_degrades_to_default "13/2024" exNow (by decide)
    (by
      intro m y h
      have hs : searchMMYYYY (normalizeMsg "13/2024") = some (13, 2024) := by decide
      rw [hs] at h
      cases h
      decide)

/-! ## Intent dispatch in `FinanceBot.chat` (classifier-output handling) -/

/-- Python `str.split("|")`. -/
def splitOnPipe : List Char → List (List Char)
  | [] => [[]]
  | c :: t =>
    if c == '|' then [] :: splitOnPipe t
    else
      match splitOnPipe t with
      | [] => [[c]]
      | g :: gs => (c :: g) :: gs

/-- Python `str.replace(pat, "")`: delete every (non-overlapping, leftmost)
occurrence of `pat`. -/
def stripAll (pat : List Char) : List Char → List Char
  | [] => []
  | c :: t =>
    if h : isPrefixList pat (c :: t) && !pat.isEmpty then
      stripAll pat ((c :: t).drop pat.length)
    else c :: stripAll pat t
termination_by l => l.length
decreasing_by
  · have hne : pat ≠ [] := by
      intro he
      rw [he] at h
      simp at h
    have hlen : 1 ≤ pat.length := List.length_pos.mpr hne
    simp only [List.length_drop, List.length_cons]
    omega
  · simp only [List.length_cons]
    omega

/-- Value of a digit run. -/
def digitsToNat (ds : List Char) : Nat :=
  ds.foldl (fun acc c => 10 * acc + digitVal c) 0

/-- Models `re.findall(r"\d+(?:[.,]\d+)?", s)[0]` followed by
`float(... .replace(",", "."))`: the first number in the string, with an
optional decimal part after `.` or `,`; `none` when the string holds no
digit. -/
def scanValor : List Char → Option ℚ
  | [] => none
  | c :: t =>
    if isDigitC c then
      let ds := (c :: t).takeWhile isDigitC
      let rest := (c :: t).dropWhile isDigitC
      match rest with
      | sep :: r2 =>
        if sep == '.' || sep == ',' then
          let fs := r2.takeWhile isDigitC
          if fs.isEmpty then some (digitsToNat ds : ℚ)
          else some ((digitsToNat ds : ℚ) + (digitsToNat fs : ℚ) / (10 ^ fs.length))
        else some (digitsToNat ds : ℚ)
      | [] => some (digitsToNat ds : ℚ)
    else scanValor t

/-- The outcome of the classifier-output handling inside `FinanceBot.chat`
(lines dispatching on `intent_response`).  One constructor per branch:
`registro` proceeds to `_add_expense` with the extracted values,
`erroExtrair` is the "❌ Erro ao extrair dados: ..." reply produced when the
extraction block raises (caught by its `except`), `analisarGastos` /
`conselhos` are the analysis and advice branches, and `conversa` is the
general-chat branch. -/
inductive DispatchResult where
  | registro (valor : ℚ) (categoria : String) (descricao : String) : DispatchResult
  | erroExtrair : DispatchResult
  | analisarGastos : DispatchResult
  | conselhos : DispatchResult
  | conversa : DispatchResult
deriving DecidableEq, Repr

/-- The dispatch on the classifier output in `FinanceBot.chat`.  Inside the
`"ACAO:CADASTRAR"` branch the source raises (and catches into the
`erroExtrair` reply) in two cases: `[... ][0]` on an empty `VALOR:` filter
(IndexError), and `descricao_parts.replace(...)` on a nonempty
`DESCRICAO:` filter — `descricao_parts` is a list, so `.replace` raises
AttributeError whenever a `DESCRICAO:` part is present; with no such part
the description defaults to "Gasto via FinanceBot". -/
def dispatchIntent (resp : String) : DispatchResult :=
  if isInfixList "ACAO:CADASTRAR".toList resp.toList then
    let parts := splitOnPipe resp.toList
    match (parts.filter (fun p => isPrefixList "VALOR:".toList p)).head? with
    | none => .erroExtrair
    | some valorPart =>
      let categoriaParts := parts.filter (fun p => isPrefixList "CATEGORIA:".toList p)
      let descricaoParts := parts.filter (fun p => isPrefixList "DESCRICAO:".toList p)
      let categoria : String :=
        match categoriaParts.head? with
        | some cp => ⟨stripAll "CATEGORIA:".toList cp⟩
        | none => "Outros"
      if descricaoParts.isEmpty then
        .registro ((scanValor (stripAll "VALOR:".toList valorPart)).getD 0) categoria
          "Gasto via FinanceBot"
      else .erroExtrair
  else if isInfixList "ACAO:ANALISAR_GASTOS".toList resp.toList then .analisarGastos
  else if isInfixList "ACAO:CONSELHOS".toList resp.toList then .conselhos
  else .conversa

/-- C4 counterexample: the classifier output "ACAO:CADASTRAR" does not parse
as the expected structured payload (it has no `VALOR:` field), yet the
orchestrator replies with the extraction-error message, not via the
general-chat path. -/
theorem C4_counterexample :
    dispatchIntent "ACAO:CADASTRAR" = .erroExtrair
    ∧ DispatchResult.erroExtrair ≠ .conversa := by
  constructor
  · decide
  · decide

/-- C4 (amended): a classifier output containing none of the markers
`ACAO:CADASTRAR`, `ACAO:ANALISAR_GASTOS`, `ACAO:CONSELHOS` is handled by the
general-chat branch; however, an output containing `ACAO:CADASTRAR` whose
payload is malformed (no `VALOR:` field, or any `DESCRICAO:` field, which
trips the `list.replace` AttributeError) yields the explicit
extraction-error reply instead of the chat fallback. -/
theorem C4_default_to_chat (resp : String)
    (h1 : isInfixList "ACAO:CADASTRAR".toList resp.toList = false)
    (h2 : isInfixList "ACAO:ANALISAR_GASTOS".toList resp.toList = false)
    (h3 : isInfixList "ACAO:CONSELHOS".toList resp.toList = false) :
    dispatchIntent resp = .conversa := by
  unfold dispatchIntent
  rw [h1, h2, h3]
  simp

/-- Witness for C4: a plain conversational classifier output reaches the
general-chat branch. -/
theorem C4_witness :
    dispatchIntent "uma conversa qualquer" = .conversa :=
  C4_default_to_chat "uma conversa qualquer" (by decide) (by decide) (by decide)

end FinanceBot







